import Mathlib

/-!
Verification development for the `graph_llm` repository.

The repository ingests LLM-extracted "ontology" records about research papers
from a JSON file (`graph.py`: `load_existing_ontologies`, `save_ontologies`;
`query.py`: `KnowledgeGraphQuery.load_ontologies`), builds a directed graph
over them with networkx (`KnowledgeGraphQuery.build_graph`), answers keyword
queries by linear scans over the record list (`query_by_technique`,
`query_by_metric`, `query_similar_papers`, `get_graph_statistics`), and
renders a bounded context block for an LLM prompt
(`LLMQueryInterface._extract_relevant_info`, `_create_context`).

This file gives a shallow embedding of those functions and proves properties
about them.  File I/O is modelled by passing the file's text content as a
`String` argument; the external LLM and PDF collaborators are out of scope.
-/

set_option maxRecDepth 100000

namespace GraphLLM

/-- Model of Python's substring membership test `sub in s`. -/
def isSubstrOf (sub s : String) : Bool :=
  (List.range (s.data.length + 1)).any (fun i => sub.data.isPrefixOf (s.data.drop i))

/-- Drop leading whitespace characters. -/
def skipWs : List Char → List Char
  | [] => []
  | c :: cs => if c.isWhitespace then skipWs cs else c :: cs

/-- Model of Python's `str.strip()`: drop leading and trailing whitespace. -/
def pyStrip (s : String) : String :=
  String.mk ((skipWs (skipWs s.data).reverse).reverse)

/-- Model of Python's `str.lower()` (the repository's data is ASCII). -/
def pyLower (s : String) : String :=
  String.mk (s.data.map Char.toLower)

/-- Model of Python's `str.split('\n')`. -/
def splitNl : List Char → List (List Char)
  | [] => [[]]
  | c :: rest =>
    if c = '\n' then [] :: splitNl rest
    else
      match splitNl rest with
      | [] => [[c]]
      | l :: ls => (c :: l) :: ls

/-! ## JSON values

Model of the Python `json` module's value space as used by the repository.
Numbers keep their source literal (the repository never does arithmetic on
JSON numbers; equality of literals refines Python equality on the parsed
numbers for valid JSON, where distinct literals of equal value cannot both
occur in the claims' inputs). -/

inductive Json where
  | null
  | bool (b : Bool)
  | num (lit : String)
  | str (s : String)
  | arr (xs : List Json)
  | obj (kvs : List (String × Json))
deriving Repr

mutual
def Json.beq : Json → Json → Bool
  | .null, .null => true
  | .bool a, .bool b => a == b
  | .num a, .num b => a == b
  | .str a, .str b => a == b
  | .arr xs, .arr ys => Json.beqList xs ys
  | .obj xs, .obj ys => Json.beqKVs xs ys
  | _, _ => false

def Json.beqList : List Json → List Json → Bool
  | [], [] => true
  | x :: xs, y :: ys => Json.beq x y && Json.beqList xs ys
  | _, _ => false

def Json.beqKVs : List (String × Json) → List (String × Json) → Bool
  | [], [] => true
  | (k1, v1) :: xs, (k2, v2) :: ys => k1 == k2 && Json.beq v1 v2 && Json.beqKVs xs ys
  | _, _ => false
end

mutual
theorem Json.beq_iff : ∀ a b : Json, Json.beq a b = true ↔ a = b
  | .null, .null => by simp [Json.beq]
  | .bool _, .bool _ => by simp [Json.beq]
  | .num _, .num _ => by simp [Json.beq]
  | .str _, .str _ => by simp [Json.beq]
  | .arr xs, .arr ys => by simp [Json.beq, Json.beqList_iff xs ys]
  | .obj xs, .obj ys => by simp [Json.beq, Json.beqKVs_iff xs ys]
  | .null, .bool _ => by simp [Json.beq]
  | .null, .num _ => by simp [Json.beq]
  | .null, .str _ => by simp [Json.beq]
  | .null, .arr _ => by simp [Json.beq]
  | .null, .obj _ => by simp [Json.beq]
  | .bool _, .null => by simp [Json.beq]
  | .bool _, .num _ => by simp [Json.beq]
  | .bool _, .str _ => by simp [Json.beq]
  | .bool _, .arr _ => by simp [Json.beq]
  | .bool _, .obj _ => by simp [Json.beq]
  | .num _, .null => by simp [Json.beq]
  | .num _, .bool _ => by simp [Json.beq]
  | .num _, .str _ => by simp [Json.beq]
  | .num _, .arr _ => by simp [Json.beq]
  | .num _, .obj _ => by simp [Json.beq]
  | .str _, .null => by simp [Json.beq]
  | .str _, .bool _ => by simp [Json.beq]
  | .str _, .num _ => by simp [Json.beq]
  | .str _, .arr _ => by simp [Json.beq]
  | .str _, .obj _ => by simp [Json.beq]
  | .arr _, .null => by simp [Json.beq]
  | .arr _, .bool _ => by simp [Json.beq]
  | .arr _, .num _ => by simp [Json.beq]
  | .arr _, .str _ => by simp [Json.beq]
  | .arr _, .obj _ => by simp [Json.beq]
  | .obj _, .null => by simp [Json.beq]
  | .obj _, .bool _ => by simp [Json.beq]
  | .obj _, .num _ => by simp [Json.beq]
  | .obj _, .str _ => by simp [Json.beq]
  | .obj _, .arr _ => by simp [Json.beq]

theorem Json.beqList_iff : ∀ xs ys : List Json, Json.beqList xs ys = true ↔ xs = ys
  | [], [] => by simp [Json.beqList]
  | x :: xs, y :: ys => by
      simp [Json.beqList, Json.beq_iff x y, Json.beqList_iff xs ys]
  | [], _ :: _ => by simp [Json.beqList]
  | _ :: _, [] => by simp [Json.beqList]

theorem Json.beqKVs_iff : ∀ xs ys : List (String × Json), Json.beqKVs xs ys = true ↔ xs = ys
  | [], [] => by simp [Json.beqKVs]
  | (k1, v1) :: xs, (k2, v2) :: ys => by
      simp [Json.beqKVs, Json.beq_iff v1 v2, Json.beqKVs_iff xs ys]
  | [], _ :: _ => by simp [Json.beqKVs]
  | _ :: _, [] => by simp [Json.beqKVs]
end

instance : DecidableEq Json := fun a b =>
  decidable_of_iff (Json.beq a b = true) (Json.beq_iff a b)

/-! ## JSON parsing

Model of `json.loads` restricted to what the repository's data can contain:
objects, arrays, strings with the standard escapes, numbers (with the JSON
no-leading-zero rule), `true`/`false`/`null`.  Recursion is fueled; the fuel
supplied by `jsonParse` is far larger than the nesting any input can reach
(every nesting level consumes at least one character). -/

def hexDigitVal (c : Char) : Option Nat :=
  if '0' ≤ c ∧ c ≤ '9' then some (c.toNat - '0'.toNat)
  else if 'a' ≤ c ∧ c ≤ 'f' then some (c.toNat - 'a'.toNat + 10)
  else if 'A' ≤ c ∧ c ≤ 'F' then some (c.toNat - 'A'.toNat + 10)
  else none

/-- Parse the body of a JSON string (after the opening quote), returning the
decoded characters and the remaining input (after the closing quote). -/
def parseStringBody : Nat → List Char → Option (List Char × List Char)
  | 0, _ => none
  | _ + 1, [] => none
  | fuel + 1, c :: cs =>
    if c = '"' then some ([], cs)
    else if c = '\\' then
      match cs with
      | [] => none
      | e :: cs2 =>
        let esc : Option (Char × List Char) :=
          if e = '"' then some ('"', cs2)
          else if e = '\\' then some ('\\', cs2)
          else if e = '/' then some ('/', cs2)
          else if e = 'n' then some ('\n', cs2)
          else if e = 't' then some ('\t', cs2)
          else if e = 'r' then some ('\r', cs2)
          else if e = 'b' then some (Char.ofNat 8, cs2)
          else if e = 'f' then some (Char.ofNat 12, cs2)
          else if e = 'u' then
            match cs2 with
            | h1 :: h2 :: h3 :: h4 :: cs3 =>
              match hexDigitVal h1, hexDigitVal h2, hexDigitVal h3, hexDigitVal h4 with
              | some a, some b, some c3, some d =>
                some (Char.ofNat (((a * 16 + b) * 16 + c3) * 16 + d), cs3)
              | _, _, _, _ => none
            | _ => none
          else none
        match esc with
        | none => none
        | some (ch, rest) =>
          match parseStringBody fuel rest with
          | none => none
          | some (body, rest2) => some (ch :: body, rest2)
    else
      match parseStringBody fuel cs with
      | none => none
      | some (body, rest) => some (c :: body, rest)

/-- Parse a JSON number literal (sign, integer part without leading zeros,
optional fraction, optional exponent), returning the literal's characters and
the remaining input. -/
def parseNumberLit (cs : List Char) : Option (List Char × List Char) :=
  let (sign, cs1) :=
    match cs with
    | '-' :: rest => ([ '-' ], rest)
    | _ => ([], cs)
  let (intPart, cs2) := cs1.span Char.isDigit
  let intOk : Bool :=
    match intPart with
    | [] => false
    | [_] => true
    | d :: _ => d ≠ '0'
  if intOk then
    let (fracPart, cs3) :=
      match cs2 with
      | '.' :: rest =>
        let (ds, rest2) := rest.span Char.isDigit
        (('.' :: ds : List Char), rest2)
      | _ => ([], cs2)
    let fracOk : Bool :=
      match fracPart with
      | [] => true
      | [_] => false
      | _ => true
    if fracOk then
      let (expPart, cs4) :=
        match cs3 with
        | e :: rest =>
          if e = 'e' ∨ e = 'E' then
            match rest with
            | s :: rest2 =>
              if s = '+' ∨ s = '-' then
                let (ds, rest3) := rest2.span Char.isDigit
                ((e :: s :: ds : List Char), rest3)
              else
                let (ds, rest3) := rest.span Char.isDigit
                ((e :: ds : List Char), rest3)
            | [] => ([e], [])
          else ([], cs3)
        | [] => ([], cs3)
      let expOk : Bool :=
        match expPart with
        | [] => true
        | _ => expPart.any Char.isDigit
      if expOk then some (sign ++ intPart ++ fracPart ++ expPart, cs4)
      else none
    else none
  else none

mutual
/-- Parse one JSON value, returning it and the remaining input. -/
def parseVal : (fuel : Nat) → List Char → Option (Json × List Char)
  | 0, _ => none
  | fuel + 1, cs =>
    match skipWs cs with
    | [] => none
    | c :: rest =>
      if c = 'n' then
        match rest with
        | 'u' :: 'l' :: 'l' :: rest2 => some (Json.null, rest2)
        | _ => none
      else if c = 't' then
        match rest with
        | 'r' :: 'u' :: 'e' :: rest2 => some (Json.bool true, rest2)
        | _ => none
      else if c = 'f' then
        match rest with
        | 'a' :: 'l' :: 's' :: 'e' :: rest2 => some (Json.bool false, rest2)
        | _ => none
      else if c = '"' then
        match parseStringBody fuel rest with
        | none => none
        | some (body, rest2) => some (Json.str (String.mk body), rest2)
      else if c = '[' then
        match skipWs rest with
        | ']' :: rest2 => some (Json.arr [], rest2)
        | _ =>
          match parseArrayItems fuel rest with
          | none => none
          | some (xs, rest2) => some (Json.arr xs, rest2)
      else if c = '\x7b' then
        match skipWs rest with
        | '\x7d' :: rest2 => some (Json.obj [], rest2)
        | _ =>
          match parseObjItems fuel rest with
          | none => none
          | some (kvs, rest2) => some (Json.obj kvs, rest2)
      else
        match parseNumberLit (c :: rest) with
        | none => none
        | some (lit, rest2) => some (Json.num (String.mk lit), rest2)

/-- Parse the comma-separated items of a non-empty JSON array, including the
closing bracket. -/
def parseArrayItems : Nat → List Char → Option (List Json × List Char)
  | 0, _ => none
  | fuel + 1, cs =>
    match parseVal fuel cs with
    | none => none
    | some (v, rest) =>
      match skipWs rest with
      | ',' :: rest2 =>
        match parseArrayItems fuel rest2 with
        | none => none
        | some (xs, rest3) => some (v :: xs, rest3)
      | ']' :: rest2 => some ([v], rest2)
      | _ => none
termination_by structural fuel => fuel

/-- Parse the comma-separated key-value pairs of a non-empty JSON object,
including the closing brace. -/
def parseObjItems : (fuel : Nat) → List Char → Option (List (String × Json) × List Char)
  | 0, _ => none
  | fuel + 1, cs =>
    match skipWs cs with
    | '"' :: rest =>
      match parseStringBody fuel rest with
      | none => none
      | some (key, rest2) =>
        match skipWs rest2 with
        | ':' :: rest3 =>
          match parseVal fuel rest3 with
          | none => none
          | some (v, rest4) =>
            match skipWs rest4 with
            | ',' :: rest5 =>
              match parseObjItems fuel rest5 with
              | none => none
              | some (kvs, rest6) => some ((String.mk key, v) :: kvs, rest6)
            | '\x7d' :: rest5 => some ([(String.mk key, v)], rest5)
            | _ => none
        | _ => none
    | _ => none
termination_by structural fuel => fuel
end

/-- Model of `json.loads`: parse a complete JSON document, tolerating
surrounding whitespace, and fail on trailing content. -/
def jsonParse (s : String) : Option Json :=
  match parseVal (2 * s.data.length + 16) s.data with
  | none => none
  | some (v, rest) => if skipWs rest = [] then some v else none

/-! ## JSON serialization

Model of `json.dump(ontologies, f, indent=2)` in `save_ontologies`
(`graph.py` lines 99-102).  The layout whitespace produced by `indent=2` is
not reproduced (it is parse-irrelevant); escaping of special characters in
strings is. -/

def escapeChar (c : Char) : List Char :=
  if c = '"' then ['\\', '"']
  else if c = '\\' then ['\\', '\\']
  else if c = '\n' then ['\\', 'n']
  else if c = '\t' then ['\\', 't']
  else if c = '\r' then ['\\', 'r']
  else [c]

def escapeString (s : String) : String :=
  String.mk ((s.data.map escapeChar).flatten)

mutual
def Json.serialize : Json → String
  | .null => "null"
  | .bool true => "true"
  | .bool false => "false"
  | .num lit => lit
  | .str s => "\"" ++ escapeString s ++ "\""
  | .arr xs => "[" ++ Json.serializeList xs ++ "]"
  | .obj kvs => "\x7b" ++ Json.serializeKVs kvs ++ "\x7d"

def Json.serializeList : List Json → String
  | [] => ""
  | [x] => Json.serialize x
  | x :: xs => Json.serialize x ++ ", " ++ Json.serializeList xs

def Json.serializeKVs : List (String × Json) → String
  | [] => ""
  | [(k, v)] => "\"" ++ escapeString k ++ "\": " ++ Json.serialize v
  | (k, v) :: kvs =>
      "\"" ++ escapeString k ++ "\": " ++ Json.serialize v ++ ", " ++ Json.serializeKVs kvs
end

/-! ## Record Store -/

/-- Model of `load_existing_ontologies` (`graph.py` lines 73-97): strip the
file content; try a whole-file parse, wrapping a non-array result into a
one-element list; on parse failure fall back to newline-delimited parsing
that keeps well-formed lines in order and silently drops malformed ones.
The missing-file case (which returns `[]`) is handled by the caller of this
model, which receives the file text directly. -/
def load_existing_ontologies (content : String) : List Json :=
  let c := pyStrip content
  if c = "" then []
  else
    match jsonParse c with
    | some (Json.arr xs) => xs
    | some v => [v]
    | none =>
      let lines := (((splitNl c.data).map (fun l => pyStrip (String.mk l)))).filter (fun l => l ≠ "")
      lines.filterMap jsonParse

/-- Model of `save_ontologies` (`graph.py` lines 99-102): serialize the full
record list as one JSON array (layout whitespace omitted, see
`Json.serialize`). -/
def save_ontologies (ontologies : List Json) : String :=
  Json.serialize (Json.arr ontologies)

/-- Model of the Python membership test `"error" in ontology` used by
`KnowledgeGraphQuery.load_ontologies` (`query.py` line 51): key membership
for dicts, element membership for lists, substring membership for strings.
On numbers/booleans/null Python would raise `TypeError`; the repository's
records are always dicts, and those shapes are outside every claim. -/
def jsonHasErrorKey : Json → Bool
  | .obj kvs => kvs.any (fun kv => kv.1 = "error")
  | .arr xs => xs.any (fun x => x = Json.str "error")
  | .str s => isSubstrOf "error" s
  | _ => false

/-- Model of `KnowledgeGraphQuery.load_ontologies` (`query.py` lines 25-54):
the same tolerant parse as `load_existing_ontologies` (the code is duplicated
verbatim between the two files), followed by filtering out every record whose
top-level shape contains an `"error"` key. -/
def load_ontologies (content : String) : List Json :=
  (load_existing_ontologies content).filter (fun o => !jsonHasErrorKey o)

/-! ## Typed record model

The shape of a successfully extracted ontology record, as produced by the
extraction prompt (`prompt.py`) and consumed field-by-field by the Query
Layer (`query.py`).  Optional fields model the `.get(key, default)` accesses
in the source; fields read with plain indexing (`record["key"]`) are
required. -/

structure Paper where
  title : String
  year : Int
  authors : List String
  venue : Option String := none
deriving DecidableEq, Repr

structure Technique where
  name : String
  type : Option String := none
deriving DecidableEq, Repr

structure ResultRecord where
  metric : String
  value : String
  dataset : Option String := none
deriving DecidableEq, Repr

structure Application where
  domain : String
  purpose : String
  use_case : Option String := none
deriving DecidableEq, Repr

structure Relationship where
  subject : String
  predicate : String
  object : String
deriving DecidableEq, Repr

structure PaperData where
  paper : Paper
  techniques : List Technique := []
  results : List ResultRecord := []
  applications : List Application := []
  relationships : List Relationship := []
deriving DecidableEq, Repr

/-! ## Knowledge Index

Model of the `networkx.DiGraph` as used by `KnowledgeGraphQuery`
(`query.py` lines 20, 56-94): a simple directed graph whose node identity is
the name string.  `add_node` on an existing node merges attributes;
`add_edge` on an existing (source, target) pair overwrites its attributes
rather than adding a parallel edge.  The `data` node attribute, which no
repository code ever reads back, is not modelled; the `type` attribute is. -/

inductive NodeType where
  | paper
  | technique
  | result
  | application
deriving DecidableEq, Repr

structure GraphNode where
  name : String
  type : Option NodeType
deriving DecidableEq, Repr

structure GraphEdge where
  src : String
  dst : String
  relationship : String
deriving DecidableEq, Repr

structure Digraph where
  nodes : List GraphNode
  edges : List GraphEdge
deriving DecidableEq, Repr

def emptyGraph : Digraph := { nodes := [], edges := [] }

def hasNode (g : Digraph) (n : String) : Bool :=
  g.nodes.any (fun x => x.name = n)

/-- Model of `graph.add_node(n, type=t, ...)`: create the node or update its
`type` attribute in place. -/
def add_node_typed (g : Digraph) (n : String) (t : NodeType) : Digraph :=
  if hasNode g n then
    { g with nodes := g.nodes.map (fun x => if x.name = n then { x with type := some t } else x) }
  else
    { g with nodes := g.nodes ++ [{ name := n, type := some t }] }

/-- Model of `graph.add_node(n)` with no attributes: create the node if
absent, leave an existing node (and its attributes) unchanged. -/
def add_node_plain (g : Digraph) (n : String) : Digraph :=
  if hasNode g n then g
  else { g with nodes := g.nodes ++ [{ name := n, type := none }] }

def hasEdge (g : Digraph) (u v : String) : Bool :=
  g.edges.any (fun e => e.src = u ∧ e.dst = v)

/-- Model of `graph.add_edge(u, v, relationship=rel)`: missing endpoints are
created as attribute-less nodes; an existing (u, v) edge has its attributes
overwritten (a `DiGraph` holds no parallel edges); otherwise the edge is
appended. -/
def add_edge (g : Digraph) (u v rel : String) : Digraph :=
  let g1 := add_node_plain (add_node_plain g u) v
  if hasEdge g1 u v then
    { g1 with
      edges := g1.edges.map (fun e =>
        if e.src = u ∧ e.dst = v then { e with relationship := rel } else e) }
  else
    { g1 with edges := g1.edges ++ [{ src := u, dst := v, relationship := rel }] }

/-- Node name synthesized for a result record (`query.py` line 72). -/
def result_node_name (r : ResultRecord) : String :=
  r.metric ++ ": " ++ r.value

/-- Node name synthesized for an application record (`query.py` line 78). -/
def application_node_name (a : Application) : String :=
  a.domain ++ " - " ++ a.purpose

/-- One iteration of the `build_graph` loop (`query.py` lines 58-94) over a
single record: the paper node, one typed node and edge per
technique/result/application, then the explicit relationship triplets,
whose endpoint nodes are created on demand without a type. -/
def add_paper_data (g : Digraph) (pd : PaperData) : Digraph :=
  let paper_title := pd.paper.title
  let g := add_node_typed g paper_title NodeType.paper
  let g := pd.techniques.foldl (fun g t =>
    add_edge (add_node_typed g t.name NodeType.technique) paper_title t.name "USES") g
  let g := pd.results.foldl (fun g r =>
    add_edge (add_node_typed g (result_node_name r) NodeType.result)
      paper_title (result_node_name r) "REPORTS") g
  let g := pd.applications.foldl (fun g a =>
    add_edge (add_node_typed g (application_node_name a) NodeType.application)
      paper_title (application_node_name a) "ADDRESSES") g
  pd.relationships.foldl (fun g rel =>
    add_edge (add_node_plain (add_node_plain g rel.subject) rel.object)
      rel.subject rel.object rel.predicate) g

/-- Model of `KnowledgeGraphQuery.build_graph` (`query.py` lines 56-94). -/
def build_graph (papers_data : List PaperData) : Digraph :=
  papers_data.foldl add_paper_data emptyGraph

structure GraphStats where
  total_papers : Nat
  total_nodes : Nat
  total_edges : Nat
  paper_nodes : Nat
  technique_nodes : Nat
  result_nodes : Nat
  application_nodes : Nat
deriving DecidableEq, Repr

/-- Model of `get_graph_statistics` (`query.py` lines 206-218). -/
def get_graph_statistics (papers_data : List PaperData) (g : Digraph) : GraphStats :=
  { total_papers := papers_data.length
    total_nodes := g.nodes.length
    total_edges := g.edges.length
    paper_nodes := (g.nodes.filter (fun n => n.type = some NodeType.paper)).length
    technique_nodes := (g.nodes.filter (fun n => n.type = some NodeType.technique)).length
    result_nodes := (g.nodes.filter (fun n => n.type = some NodeType.result)).length
    application_nodes := (g.nodes.filter (fun n => n.type = some NodeType.application)).length }

/-! ## Query Layer -/

/-- Model of Python's `float(s)` on the repository's value strings: optional
sign, decimal digits with an optional fraction, optional exponent (the
`inf`/`nan` spellings and digit-group underscores, which no record uses, are
not modelled).  Values are exact rationals. -/
def splitFirstAt (p : Char → Bool) : List Char → List Char × Option (List Char)
  | [] => ([], none)
  | c :: rest =>
    if p c then ([], some rest)
    else
      let (a, b) := splitFirstAt p rest
      (c :: a, b)

def digitsToNat (cs : List Char) : Nat :=
  cs.foldl (fun acc c => acc * 10 + (c.toNat - '0'.toNat)) 0

def pyFloat (s : String) : Option Rat :=
  let cs := (pyStrip s).data
  let (neg, cs1) :=
    match cs with
    | '-' :: rest => (true, rest)
    | '+' :: rest => (false, rest)
    | _ => (false, cs)
  let (mant, expTail) := splitFirstAt (fun c => c = 'e' ∨ c = 'E') cs1
  let (intPart, fracTail) := splitFirstAt (fun c => c = '.') mant
  let fracPart := fracTail.getD []
  if intPart.all Char.isDigit ∧ fracPart.all Char.isDigit ∧ (intPart ≠ [] ∨ fracPart ≠ []) then
    let k := fracPart.length
    let mantNum : Int := (digitsToNat intPart * 10 ^ k + digitsToNat fracPart : Nat)
    let signedNum : Int := if neg then -mantNum else mantNum
    match expTail with
    | none => some (mkRat signedNum (10 ^ k))
    | some ecs =>
      let (eneg, ecs1) :=
        match ecs with
        | '-' :: r => (true, r)
        | '+' :: r => (false, r)
        | _ => (false, ecs)
      if ecs1 ≠ [] ∧ ecs1.all Char.isDigit then
        let e := digitsToNat ecs1
        some (if eneg then mkRat signedNum (10 ^ k * 10 ^ e)
              else mkRat (signedNum * (10 ^ e : Nat)) (10 ^ k))
      else none
  else none

/-- Stable descending insertion: `a` goes before the first element whose key
is less than or equal to `a`'s, so earlier elements stay before later ones
with an equal key. -/
def insertDescBy {α β : Type} [LinearOrder β] (key : α → β) (a : α) : List α → List α
  | [] => [a]
  | b :: l => if key b ≤ key a then a :: b :: l else b :: insertDescBy key a l

/-- Model of CPython's stable `list.sort(key=k, reverse=True)` /
`sorted(..., key=k, reverse=True)`: descending by key, ties keep the
original order. -/
def sortDescBy {α β : Type} [LinearOrder β] (key : α → β) : List α → List α
  | [] => []
  | a :: l => insertDescBy key a (sortDescBy key l)

structure PaperSummary where
  title : String
  year : Int
  authors : List String
deriving DecidableEq, Repr

structure TechniqueQueryResult where
  technique : String
  papers : List PaperSummary
  applications : List Application
  results : List ResultRecord
deriving DecidableEq, Repr

/-- Model of `query_by_technique` (`query.py` lines 96-119): one pass over
the records; a record matches when the lowered query name is an element of
its lowered technique-name list (exact case-insensitive name equality); each
match appends the paper summary and concatenates that record's applications
and results without de-duplication. -/
def query_by_technique (papers_data : List PaperData) (technique_name : String) :
    TechniqueQueryResult :=
  papers_data.foldl (fun acc pd =>
    if (pd.techniques.map (fun t => pyLower t.name)).contains (pyLower technique_name) then
      { acc with
        papers := acc.papers ++ [{ title := pd.paper.title, year := pd.paper.year,
                                   authors := pd.paper.authors }]
        applications := acc.applications ++ pd.applications
        results := acc.results ++ pd.results }
    else acc)
    { technique := technique_name, papers := [], applications := [], results := [] }

structure MetricQueryResult where
  metric : String
  papers : List Paper
  techniques : List Technique
  best_results : List ResultRecord
deriving DecidableEq, Repr

/-- Collection phase of `query_by_metric` (`query.py` lines 153-159): for
every result whose lowered metric contains the lowered query as a substring,
append the paper, concatenate the record's techniques, and append the
result. -/
def collect_metric_results (papers_data : List PaperData) (metric_name : String) :
    MetricQueryResult :=
  papers_data.foldl (fun acc pd =>
    pd.results.foldl (fun acc r =>
      if isSubstrOf (pyLower metric_name) (pyLower r.metric) then
        { acc with
          papers := acc.papers ++ [pd.paper]
          techniques := acc.techniques ++ pd.techniques
          best_results := acc.best_results ++ [r] }
      else acc) acc)
    { metric := metric_name, papers := [], techniques := [], best_results := [] }

def metricKey (r : ResultRecord) : Rat := (pyFloat r.value).getD 0

/-- Model of `query_by_metric` (`query.py` lines 144-167).  The
`try: sort ... except: pass` is modelled by CPython's `list.sort` semantics:
all keys are computed before any reordering, so when `float` fails on any
collected value the list is left in its original insertion order and the
exception is swallowed. -/
def query_by_metric (papers_data : List PaperData) (metric_name : String) :
    MetricQueryResult :=
  let collected := collect_metric_results papers_data metric_name
  if collected.best_results.all (fun r => (pyFloat r.value).isSome) then
    { collected with best_results := sortDescBy metricKey collected.best_results }
  else collected

/-- Model of `set(xs) & set(ys)` for lists of strings, in first-occurrence
order of `xs` (CPython leaves set iteration order unspecified; only the
element set and its size are meaningful). -/
def setIntersectList (xs ys : List String) : List String :=
  xs.dedup.filter (fun x => ys.contains x)

def technique_overlap (target pd : PaperData) : Nat :=
  (setIntersectList (target.techniques.map (fun t => t.name))
    (pd.techniques.map (fun t => t.name))).length

def domain_overlap (target pd : PaperData) : Nat :=
  (setIntersectList (target.applications.map (fun a => a.domain))
    (pd.applications.map (fun a => a.domain))).length

structure SimilarPaperEntry where
  paper : Paper
  technique_similarity : Nat
  domain_similarity : Nat
  shared_techniques : List String
  shared_domains : List String
deriving DecidableEq, Repr

/-- Target lookup of `query_similar_papers` (`query.py` lines 171-175): the
first record, in load order, whose lowered title contains the lowered query
as a substring. -/
def find_target (papers_data : List PaperData) (paper_title : String) : Option PaperData :=
  papers_data.find? (fun pd => isSubstrOf (pyLower paper_title) (pyLower pd.paper.title))

/-- Per-record body of the `query_similar_papers` loop (`query.py` lines
184-202): records whose title string equals the target's are skipped, and a
record is kept exactly when it shares at least one technique name or one
application domain with the target. -/
def similar_entry (target pd : PaperData) : Option SimilarPaperEntry :=
  if pd.paper.title = target.paper.title then none
  else if technique_overlap target pd > 0 ∨ domain_overlap target pd > 0 then
    some { paper := pd.paper
           technique_similarity := technique_overlap target pd
           domain_similarity := domain_overlap target pd
           shared_techniques := setIntersectList (target.techniques.map (fun t => t.name))
             (pd.techniques.map (fun t => t.name))
           shared_domains := setIntersectList (target.applications.map (fun a => a.domain))
             (pd.applications.map (fun a => a.domain)) }
  else none

def similarityKey (e : SimilarPaperEntry) : Nat :=
  e.technique_similarity + e.domain_similarity

/-- Model of `query_similar_papers` (`query.py` lines 169-204). -/
def query_similar_papers (papers_data : List PaperData) (paper_title : String) :
    List SimilarPaperEntry :=
  match find_target papers_data paper_title with
  | none => []
  | some target => sortDescBy similarityKey (papers_data.filterMap (similar_entry target))

/-! ## Context Builder -/

structure RelevantInfo where
  papers : List Paper := []
  techniques : List Technique := []
  applications : List Application := []
  results : List ResultRecord := []
deriving DecidableEq, Repr

/-- Model of Python's `sep.join(parts)`. -/
def joinWith (sep : String) : List String → String
  | [] => ""
  | [s] => s
  | s :: rest => s ++ sep ++ joinWith sep rest

def paper_context_line (p : Paper) : String :=
  "- " ++ p.title ++ " (" ++ toString p.year ++ ") by " ++ joinWith ", " p.authors

def technique_context_line (t : Technique) : String :=
  "- " ++ t.name ++ " (" ++ t.type.getD "N/A" ++ ")"

def application_context_line (a : Application) : String :=
  "- " ++ a.domain ++ ": " ++ a.purpose

def result_context_line (r : ResultRecord) : String :=
  "- " ++ r.metric ++ ": " ++ r.value ++ " (Dataset: " ++ r.dataset.getD "N/A" ++ ")"

/-- Model of `LLMQueryInterface._create_context` (`query.py` lines 299-323):
each non-empty bucket contributes a header line and at most its first five
rendered items; the parts are newline-joined, and when every bucket is empty
the fixed sentinel is returned. -/
def create_context (info : RelevantInfo) : String :=
  let parts :=
    (if info.papers.isEmpty then []
     else "PAPERS:" :: (info.papers.take 5).map paper_context_line) ++
    (if info.techniques.isEmpty then []
     else "\nTECHNIQUES:" :: (info.techniques.take 5).map technique_context_line) ++
    (if info.applications.isEmpty then []
     else "\nAPPLICATIONS:" :: (info.applications.take 5).map application_context_line) ++
    (if info.results.isEmpty then []
     else "\nRESULTS:" :: (info.results.take 5).map result_context_line)
  if parts.isEmpty then "No relevant information found."
  else joinWith "\n" parts

def technique_keywords : List String := ["technique", "method", "approach", "model"]

def application_keywords : List String := ["application", "domain", "use case", "purpose"]

def result_keywords : List String := ["result", "performance", "accuracy", "bleu", "metric"]

/-- Model of `LLMQueryInterface._extract_relevant_info` (`query.py` lines
267-297): each keyword bucket is filled with every record's corresponding
sub-list when any of its trigger words occurs in the lowered query, and the
papers bucket unconditionally receives every record's paper sub-record. -/
def extract_relevant_info (papers_data : List PaperData) (query : String) : RelevantInfo :=
  let query_lower := pyLower query
  { techniques :=
      if technique_keywords.any (fun w => isSubstrOf w query_lower) then
        papers_data.foldl (fun acc pd => acc ++ pd.techniques) []
      else []
    applications :=
      if application_keywords.any (fun w => isSubstrOf w query_lower) then
        papers_data.foldl (fun acc pd => acc ++ pd.applications) []
      else []
    results :=
      if result_keywords.any (fun w => isSubstrOf w query_lower) then
        papers_data.foldl (fun acc pd => acc ++ pd.results) []
      else []
    papers := papers_data.map (fun pd => pd.paper) }

/-! ## Properties of the stable descending sort -/

theorem insertDescBy_perm {α β : Type} [LinearOrder β] (key : α → β) (a : α) (l : List α) :
    List.Perm (insertDescBy key a l) (a :: l) := by
  induction l with
  | nil => exact List.Perm.refl _
  | cons b t ih =>
    rw [insertDescBy]
    split
    · exact List.Perm.refl _
    · exact (List.Perm.cons b ih).trans (List.Perm.swap a b t)

theorem sortDescBy_perm {α β : Type} [LinearOrder β] (key : α → β) (l : List α) :
    List.Perm (sortDescBy key l) l := by
  induction l with
  | nil => exact List.Perm.refl _
  | cons a t ih =>
    rw [sortDescBy]
    exact (insertDescBy_perm key a (sortDescBy key t)).trans (List.Perm.cons a ih)

theorem mem_sortDescBy {α β : Type} [LinearOrder β] (key : α → β) (l : List α) (x : α) :
    x ∈ sortDescBy key l ↔ x ∈ l :=
  (sortDescBy_perm key l).mem_iff

theorem insertDescBy_pairwise {α β : Type} [LinearOrder β] (key : α → β) (a : α) (l : List α)
    (h : l.Pairwise (fun x y => key y ≤ key x)) :
    (insertDescBy key a l).Pairwise (fun x y => key y ≤ key x) := by
  induction l with
  | nil => simp [insertDescBy]
  | cons b t ih =>
    rw [insertDescBy]
    rcases List.pairwise_cons.mp h with ⟨hb, ht⟩
    split
    · rename_i hba
      refine List.pairwise_cons.mpr ⟨?_, h⟩
      intro x hx
      rcases List.mem_cons.mp hx with rfl | hx
      · exact hba
      · exact le_trans (hb x hx) hba
    · rename_i hba
      refine List.pairwise_cons.mpr ⟨?_, ih ht⟩
      intro x hx
      rcases List.mem_cons.mp ((insertDescBy_perm key a t).mem_iff.mp hx) with rfl | hx
      · exact le_of_lt (lt_of_not_le hba)
      · exact hb x hx

theorem sortDescBy_pairwise {α β : Type} [LinearOrder β] (key : α → β) (l : List α) :
    (sortDescBy key l).Pairwise (fun x y => key y ≤ key x) := by
  induction l with
  | nil => simp [sortDescBy]
  | cons a t ih => exact insertDescBy_pairwise key a (sortDescBy key t) ih

theorem insertDescBy_filter_key {α β : Type} [LinearOrder β] (key : α → β) (a : α) (l : List α)
    (k : β) :
    (insertDescBy key a l).filter (fun x => decide (key x = k)) =
      if key a = k then a :: l.filter (fun x => decide (key x = k))
      else l.filter (fun x => decide (key x = k)) := by
  induction l with
  | nil => by_cases hak : key a = k <;> simp [insertDescBy, hak]
  | cons b t ih =>
    rw [insertDescBy]
    split
    · rename_i hba
      by_cases hak : key a = k <;> simp [List.filter, hak]
    · rename_i hba
      by_cases hak : key a = k <;> by_cases hbk : key b = k <;>
        simp [List.filter, hak, hbk, ih]
      exact absurd (hbk.trans hak.symm).le hba

theorem sortDescBy_filter_key {α β : Type} [LinearOrder β] (key : α → β) (l : List α) (k : β) :
    (sortDescBy key l).filter (fun x => decide (key x = k)) =
      l.filter (fun x => decide (key x = k)) := by
  induction l with
  | nil => rfl
  | cons a t ih =>
    rw [sortDescBy, insertDescBy_filter_key]
    by_cases hak : key a = k <;> simp [List.filter, hak, ih]

/-! ## First-match characterization of `List.find?` -/

theorem find?_first_split {α : Type} (p : α → Bool) :
    ∀ (l : List α) (a : α), l.find? p = some a →
      ∃ l₁ l₂, l = l₁ ++ a :: l₂ ∧ (∀ x ∈ l₁, p x = false) ∧ p a = true := by
  intro l
  induction l with
  | nil => intro a h; simp [List.find?] at h
  | cons b t ih =>
    intro a h
    rw [List.find?] at h
    rcases hp : p b with _ | _
    · rw [hp] at h
      rcases ih a h with ⟨l₁, l₂, rfl, hnone, hpa⟩
      exact ⟨b :: l₁, l₂, rfl, by
        intro x hx
        rcases List.mem_cons.mp hx with rfl | hx
        · exact hp
        · exact hnone x hx, hpa⟩
    · rw [hp] at h
      cases h
      exact ⟨[], t, rfl, by simp, hp⟩

/-! ## Edge-set view of graph construction

`add_edge` keys edges by their (source, target) pair; these lemmas reduce
the edge list of a built graph to a pure fold over per-record edge
specifications, from which the edge count is the number of distinct
(source, target) pairs encountered. -/

/-- Action of `add_edge` on the edge list alone. -/
def insE (es : List GraphEdge) (u v rel : String) : List GraphEdge :=
  if es.any (fun e => e.src = u ∧ e.dst = v) then
    es.map (fun e => if e.src = u ∧ e.dst = v then { e with relationship := rel } else e)
  else es ++ [{ src := u, dst := v, relationship := rel }]

def edgeKeys (es : List GraphEdge) : List (String × String) :=
  es.map (fun e => (e.src, e.dst))

/-- The (source, target, label) triples a single record contributes, in
program order. -/
def edge_specs (pd : PaperData) : List (String × String × String) :=
  pd.techniques.map (fun t => (pd.paper.title, t.name, "USES")) ++
  pd.results.map (fun r => (pd.paper.title, result_node_name r, "REPORTS")) ++
  pd.applications.map (fun a => (pd.paper.title, application_node_name a, "ADDRESSES")) ++
  pd.relationships.map (fun rel => (rel.subject, rel.object, rel.predicate))

def foldInsE (es : List GraphEdge) (specs : List (String × String × String)) : List GraphEdge :=
  specs.foldl (fun es s => insE es s.1 s.2.1 s.2.2) es

theorem edges_add_node_plain (g : Digraph) (n : String) :
    (add_node_plain g n).edges = g.edges := by
  rw [add_node_plain]; split <;> rfl

theorem edges_add_node_typed (g : Digraph) (n : String) (t : NodeType) :
    (add_node_typed g n t).edges = g.edges := by
  rw [add_node_typed]; split <;> rfl

theorem edges_add_edge (g : Digraph) (u v rel : String) :
    (add_edge g u v rel).edges = insE g.edges u v rel := by
  rw [add_edge, insE]
  simp only [hasEdge, edges_add_node_plain]
  split <;> rfl

theorem edges_foldl {α : Type} (f : Digraph → α → Digraph)
    (spec : α → String × String × String)
    (hf : ∀ g x, (f g x).edges = insE g.edges (spec x).1 (spec x).2.1 (spec x).2.2) :
    ∀ (xs : List α) (g : Digraph),
      (xs.foldl f g).edges = foldInsE g.edges (xs.map spec) := by
  intro xs
  induction xs with
  | nil => intro g; rfl
  | cons x t ih =>
    intro g
    rw [List.foldl_cons, ih, hf]
    rfl

theorem foldInsE_append (es : List GraphEdge) (s1 s2 : List (String × String × String)) :
    foldInsE es (s1 ++ s2) = foldInsE (foldInsE es s1) s2 := by
  rw [foldInsE, foldInsE, foldInsE, List.foldl_append]

theorem edges_add_paper_data (g : Digraph) (pd : PaperData) :
    (add_paper_data g pd).edges = foldInsE g.edges (edge_specs pd) := by
  have htech := edges_foldl
    (fun g t => add_edge (add_node_typed g t.name NodeType.technique) pd.paper.title t.name
      "USES")
    (fun t => (pd.paper.title, t.name, "USES"))
    (fun g x => by rw [edges_add_edge, edges_add_node_typed])
    pd.techniques
  have hres := edges_foldl
    (fun g r => add_edge (add_node_typed g (result_node_name r) NodeType.result)
      pd.paper.title (result_node_name r) "REPORTS")
    (fun r => (pd.paper.title, result_node_name r, "REPORTS"))
    (fun g x => by rw [edges_add_edge, edges_add_node_typed])
    pd.results
  have happ := edges_foldl
    (fun g a => add_edge (add_node_typed g (application_node_name a) NodeType.application)
      pd.paper.title (application_node_name a) "ADDRESSES")
    (fun a => (pd.paper.title, application_node_name a, "ADDRESSES"))
    (fun g x => by rw [edges_add_edge, edges_add_node_typed])
    pd.applications
  have hrel := edges_foldl
    (fun g rel => add_edge (add_node_plain (add_node_plain g rel.subject) rel.object)
      rel.subject rel.object rel.predicate)
    (fun rel => (rel.subject, rel.object, rel.predicate))
    (fun g x => by rw [edges_add_edge, edges_add_node_plain, edges_add_node_plain])
    pd.relationships
  rw [add_paper_data, edge_specs]
  rw [foldInsE_append, foldInsE_append, foldInsE_append]
  rw [hrel, happ, hres, htech, edges_add_node_typed]

theorem edges_build_graph (papers_data : List PaperData) :
    (build_graph papers_data).edges =
      foldInsE [] ((papers_data.map edge_specs).flatten) := by
  rw [build_graph]
  have main : ∀ (l : List PaperData) (g : Digraph),
      (l.foldl add_paper_data g).edges = foldInsE g.edges ((l.map edge_specs).flatten) := by
    intro l
    induction l with
    | nil => intro g; rfl
    | cons pd t ih =>
      intro g
      rw [List.foldl_cons, ih, List.map_cons, List.flatten_cons, foldInsE_append,
        edges_add_paper_data]
  exact main papers_data emptyGraph

theorem edgeKeys_insE (es : List GraphEdge) (u v rel : String) :
    edgeKeys (insE es u v rel) =
      if (u, v) ∈ edgeKeys es then edgeKeys es else edgeKeys es ++ [(u, v)] := by
  rw [insE, edgeKeys]
  have hmem : (es.any (fun e => e.src = u ∧ e.dst = v) = true) ↔ (u, v) ∈ edgeKeys es := by
    rw [edgeKeys, List.any_eq_true]
    simp only [decide_eq_true_eq, List.mem_map, Prod.mk.injEq]
  split
  · rename_i h
    rw [if_pos (hmem.mp h), List.map_map]
    apply List.map_congr_left
    intro e _
    simp only [Function.comp_apply]
    split <;> rfl
  · rename_i h
    rw [if_neg (fun hm => h (hmem.mpr hm)), List.map_append]
    rfl

theorem length_insE (es : List GraphEdge) (u v rel : String) :
    (insE es u v rel).length =
      if (u, v) ∈ edgeKeys es then es.length else es.length + 1 := by
  have h1 : (insE es u v rel).length = (edgeKeys (insE es u v rel)).length := by
    rw [edgeKeys, List.length_map]
  have h2 : es.length = (edgeKeys es).length := by rw [edgeKeys, List.length_map]
  rw [h1, h2, edgeKeys_insE]
  split <;> simp

theorem edgeKeys_foldInsE_toFinset (specs : List (String × String × String)) :
    ∀ es : List GraphEdge,
      (edgeKeys (foldInsE es specs)).toFinset =
        (edgeKeys es).toFinset ∪ (specs.map (fun s => (s.1, s.2.1))).toFinset := by
  induction specs with
  | nil => intro es; simp [foldInsE]
  | cons s t ih =>
    intro es
    rw [foldInsE, List.foldl_cons, ← foldInsE, ih, edgeKeys_insE]
    split
    · rename_i h
      rw [List.map_cons, List.toFinset_cons]
      ext x
      simp only [Finset.mem_union, Finset.mem_insert, List.mem_toFinset]
      constructor
      · rintro (hx | hx)
        · exact Or.inl hx
        · exact Or.inr (Or.inr hx)
      · rintro (hx | rfl | hx)
        · exact Or.inl hx
        · exact Or.inl (by simpa using h)
        · exact Or.inr hx
    · rw [List.toFinset_append, List.map_cons, List.toFinset_cons]
      ext x
      simp only [Finset.mem_union, Finset.mem_insert, List.mem_toFinset, List.toFinset_cons,
        List.mem_singleton]
      tauto

theorem nodupKeys_foldInsE (specs : List (String × String × String)) :
    ∀ es : List GraphEdge, (edgeKeys es).Nodup → (edgeKeys (foldInsE es specs)).Nodup := by
  induction specs with
  | nil => intro es h; exact h
  | cons s t ih =>
    intro es h
    rw [foldInsE, List.foldl_cons, ← foldInsE]
    apply ih
    rw [edgeKeys_insE]
    split
    · exact h
    · rename_i hmem
      simpa [List.nodup_append] using ⟨h, hmem⟩

theorem length_foldInsE_card (specs : List (String × String × String)) (es : List GraphEdge)
    (h : (edgeKeys es).Nodup) :
    (foldInsE es specs).length = ((edgeKeys es).toFinset ∪
      (specs.map (fun s => (s.1, s.2.1))).toFinset).card := by
  have hlen : (foldInsE es specs).length = (edgeKeys (foldInsE es specs)).length := by
    rw [edgeKeys, List.length_map]
  rw [hlen, ← List.toFinset_card_of_nodup (nodupKeys_foldInsE specs es h),
    edgeKeys_foldInsE_toFinset]

/-- The edge count of a built graph is the number of distinct
(source, target) pairs among all records' edge specifications. -/
theorem build_graph_edge_count (papers_data : List PaperData) :
    (build_graph papers_data).edges.length =
      (((papers_data.map edge_specs).flatten).map (fun s => (s.1, s.2.1))).toFinset.card := by
  rw [edges_build_graph, length_foldInsE_card _ _ (by simp [edgeKeys])]
  simp [edgeKeys]

/-- Every node carries at most one `type` tag, so the per-type counts sum to
at most the node count. -/
theorem type_counts_le_length (ns : List GraphNode) :
    (ns.filter (fun n => n.type = some NodeType.paper)).length +
    (ns.filter (fun n => n.type = some NodeType.technique)).length +
    (ns.filter (fun n => n.type = some NodeType.result)).length +
    (ns.filter (fun n => n.type = some NodeType.application)).length ≤ ns.length := by
  induction ns with
  | nil => simp
  | cons n t ih =>
    rcases hn : n.type with _ | ty
    · simp [List.filter_cons, hn]
      omega
    · cases ty <;> simp [List.filter_cons, hn] <;> omega

/-! ## Concrete fixtures

Records mirroring the repository's own running example (`ontology.py`,
`prompt.py`): the GNMT and Transformer papers, plus auxiliary records for
the similarity and statistics scenarios. -/

def gnmt_record : PaperData :=
  { paper := { title := "GNMT: Google's Neural Machine Translation System", year := 2016,
               authors := ["Wu", "Schuster"] }
    techniques := [{ name := "Seq2Seq with Attention", type := some "architecture" },
                   { name := "Deep LSTM", type := some "architecture" }]
    results := [{ metric := "BLEU", value := "24.6", dataset := some "WMT En->Fr" }]
    applications := [{ domain := "machine translation", purpose := "en-fr translation" }] }

def attention_record : PaperData :=
  { paper := { title := "Attention Is All You Need", year := 2017, authors := ["Vaswani"] }
    techniques := [{ name := "Transformer Architecture", type := some "architecture" }]
    results := [{ metric := "BLEU", value := "28.4", dataset := some "WMT En->Fr" }]
    applications := [{ domain := "machine translation", purpose := "sequence transduction" }] }

def sim_target_record : PaperData :=
  { paper := { title := "Paper One", year := 2020, authors := ["A"] }
    techniques := [{ name := "Transformer Architecture" }, { name := "Adam" }]
    applications := [{ domain := "vision", purpose := "classification" }] }

def sim_match_record : PaperData :=
  { paper := { title := "Paper Two", year := 2021, authors := ["B"] }
    techniques := [{ name := "Transformer Architecture" }]
    applications := [{ domain := "speech", purpose := "recognition" }] }

def sim_unrelated_record : PaperData :=
  { paper := { title := "Paper Three", year := 2022, authors := ["C"] }
    techniques := [{ name := "SVM" }]
    applications := [{ domain := "tabular data", purpose := "regression" }] }

def title_twin_record : PaperData :=
  { paper := { title := "Attention Is All You Need", year := 2018, authors := ["Other"] }
    techniques := [{ name := "Transformer Architecture" }]
    applications := [{ domain := "machine translation", purpose := "sequence transduction" }] }

def bleu_two_record : PaperData :=
  { paper := { title := "Metric Paper", year := 2020, authors := ["M"] }
    results := [{ metric := "BLEU", value := "24.6" }, { metric := "BLEU", value := "28.4" }] }

def bleu_na_record : PaperData :=
  { paper := { title := "Metric Paper NA", year := 2020, authors := ["M"] }
    results := [{ metric := "BLEU", value := "24.6" }, { metric := "BLEU", value := "N/A" },
                { metric := "BLEU", value := "28.4" }] }

def triplet_record : PaperData :=
  { paper := { title := "Triplet Paper", year := 2020, authors := [] }
    techniques := [{ name := "Transformer Architecture" }]
    relationships := [{ subject := "Transformer Architecture", predicate := "LEADS_TO",
                        object := "state of the art BLEU" }] }

/-! ## Claims -/

/-- Claim C1, as stated, is false: `KnowledgeGraphQuery.graph` is an
`nx.DiGraph`, so `add_edge` on an existing (source, target) pair overwrites
it instead of adding a parallel edge.  Building over a collection containing
the GNMT record twice yields the same total edge count (4: two USES, one
REPORTS, one ADDRESSES) as building over it once; the claim predicts the
repeated edges are counted again. -/
theorem duplicate_record_edge_count_cex :
    (build_graph [gnmt_record, gnmt_record]).edges.length = 4 ∧
    (build_graph [gnmt_record]).edges.length = 4 := by
  constructor <;> decide

/-- Claim C1 (amended): the Knowledge Index de-duplicates edges by their
(source, target) pair: a collection in which the same paper record appears
twice produces exactly the edge count of the collection with the duplicate
occurrence removed. -/
theorem build_graph_duplicate_record_edge_count (l1 l2 l3 : List PaperData) (pd : PaperData) :
    (build_graph (l1 ++ pd :: l2 ++ pd :: l3)).edges.length =
      (build_graph (l1 ++ pd :: l2 ++ l3)).edges.length := by
  rw [build_graph_edge_count, build_graph_edge_count]
  congr 1
  simp only [List.map_append, List.map_cons, List.flatten_append, List.flatten_cons,
    List.toFinset_append]
  ext x
  simp only [Finset.mem_union]
  tauto

/-- Witness for the amended claim C1 at the GNMT record. -/
theorem build_graph_duplicate_record_edge_count_witness :
    (build_graph ([] ++ gnmt_record :: [] ++ gnmt_record :: [])).edges.length =
      (build_graph ([] ++ gnmt_record :: [] ++ [])).edges.length :=
  build_graph_duplicate_record_edge_count [] [] [] gnmt_record

/-- Claim C10: after building the graph from any record collection, the four
per-type node counts of `get_graph_statistics` sum to at most `total_nodes`;
the bound is strict for `triplet_record`, whose relationship endpoint
"state of the art BLEU" becomes a node with no type tag. -/
theorem stats_type_counts_le_total_nodes :
    (∀ papers_data : List PaperData,
      (get_graph_statistics papers_data (build_graph papers_data)).paper_nodes +
      (get_graph_statistics papers_data (build_graph papers_data)).technique_nodes +
      (get_graph_statistics papers_data (build_graph papers_data)).result_nodes +
      (get_graph_statistics papers_data (build_graph papers_data)).application_nodes ≤
      (get_graph_statistics papers_data (build_graph papers_data)).total_nodes) ∧
    (get_graph_statistics [triplet_record] (build_graph [triplet_record])).paper_nodes +
      (get_graph_statistics [triplet_record] (build_graph [triplet_record])).technique_nodes +
      (get_graph_statistics [triplet_record] (build_graph [triplet_record])).result_nodes +
      (get_graph_statistics [triplet_record] (build_graph [triplet_record])).application_nodes
      = 2 ∧
    (get_graph_statistics [triplet_record] (build_graph [triplet_record])).total_nodes = 3 :=
  ⟨fun papers_data => type_counts_le_length (build_graph papers_data).nodes,
   by decide, by decide⟩

/-- Claim C2, as stated, is false: the match in `query_by_technique` is exact
case-insensitive name equality (`technique_name.lower() in [t.lower() ...]`),
so the query string "Transformer" does not match the technique named
"Transformer Architecture" and the query returns no papers at all, not the
one paper the claim promises. -/
theorem query_by_technique_transformer_cex :
    attention_record.techniques.map (fun t => t.name) = ["Transformer Architecture"] ∧
    gnmt_record.techniques.map (fun t => t.name) = ["Seq2Seq with Attention", "Deep LSTM"] ∧
    (query_by_technique [gnmt_record, attention_record] "Transformer").papers = [] := by
  refine ⟨rfl, rfl, by decide⟩

/-- Claim C2 (amended): against the two-paper fixture in which only one
paper lists the technique "Transformer Architecture",
`query_by_technique("Transformer")` returns no papers, applications or
results, because matching requires exact case-insensitive name equality;
querying the full name (in any case) returns exactly that one paper together
with the concatenation (duplicates kept) of its applications and results. -/
theorem query_by_technique_exact_match :
    query_by_technique [gnmt_record, attention_record] "Transformer" =
      { technique := "Transformer", papers := [], applications := [], results := [] } ∧
    query_by_technique [gnmt_record, attention_record] "transformer architecture" =
      { technique := "transformer architecture"
        papers := [{ title := "Attention Is All You Need", year := 2017,
                     authors := ["Vaswani"] }]
        applications := [{ domain := "machine translation",
                           purpose := "sequence transduction" }]
        results := [{ metric := "BLEU", value := "28.4", dataset := some "WMT En->Fr" }] } := by
  constructor <;> decide

/-- Claim C3: `query_by_metric` sorts the collected results descending by
numeric value ("24.6"/"28.4" come back as 28.4 then 24.6); when any
collected value fails to parse as a number (such as "N/A") the whole list is
returned in original insertion order and no error is surfaced.  In general:
with an unparsable value present the collected order is returned unchanged,
and with all values parsable the output is a permutation of the collected
results that is pairwise descending in parsed value. -/
theorem query_by_metric_sort_behavior :
    (query_by_metric [bleu_two_record] "BLEU").best_results =
      [{ metric := "BLEU", value := "28.4" }, { metric := "BLEU", value := "24.6" }] ∧
    (query_by_metric [bleu_na_record] "BLEU").best_results =
      [{ metric := "BLEU", value := "24.6" }, { metric := "BLEU", value := "N/A" },
       { metric := "BLEU", value := "28.4" }] ∧
    (∀ (papers_data : List PaperData) (metric_name : String),
      (∃ r ∈ (collect_metric_results papers_data metric_name).best_results,
          pyFloat r.value = none) →
        (query_by_metric papers_data metric_name).best_results =
          (collect_metric_results papers_data metric_name).best_results) ∧
    (∀ (papers_data : List PaperData) (metric_name : String),
      ((collect_metric_results papers_data metric_name).best_results.all
          (fun r => (pyFloat r.value).isSome)) = true →
        List.Perm (query_by_metric papers_data metric_name).best_results
            (collect_metric_results papers_data metric_name).best_results ∧
        ((query_by_metric papers_data metric_name).best_results).Pairwise
          (fun a b => metricKey b ≤ metricKey a)) := by
  refine ⟨by decide, by decide, ?_, ?_⟩
  · intro papers_data metric_name hbad
    rw [query_by_metric]
    rw [if_neg]
    intro hall
    rcases hbad with ⟨r, hr, hnone⟩
    have := List.all_eq_true.mp hall r hr
    rw [hnone] at this
    exact Bool.noConfusion this
  · intro papers_data metric_name hall
    rw [query_by_metric, if_pos hall]
    exact ⟨sortDescBy_perm metricKey _, sortDescBy_pairwise metricKey _⟩

/-- Witness for claim C3: the non-numeric fallback at the "N/A" fixture and
the sortedness clause at the two-value fixture. -/
theorem query_by_metric_sort_behavior_witness :
    (query_by_metric [bleu_na_record] "BLEU").best_results =
      (collect_metric_results [bleu_na_record] "BLEU").best_results ∧
    List.Perm (query_by_metric [bleu_two_record] "BLEU").best_results
      (collect_metric_results [bleu_two_record] "BLEU").best_results :=
  ⟨query_by_metric_sort_behavior.2.2.1 [bleu_na_record] "BLEU"
      ⟨{ metric := "BLEU", value := "N/A" }, by decide, by decide⟩,
   (query_by_metric_sort_behavior.2.2.2 [bleu_two_record] "BLEU" (by decide)).1⟩

/-! Helper lemmas for the similarity queries. -/

theorem mem_query_similar_papers_iff (papers_data : List PaperData) (t : String)
    (target : PaperData) (h : find_target papers_data t = some target)
    (e : SimilarPaperEntry) :
    e ∈ query_similar_papers papers_data t ↔
      e ∈ papers_data.filterMap (similar_entry target) := by
  rw [query_similar_papers, h]
  exact mem_sortDescBy similarityKey _ e

theorem similar_entry_eq_some (target pd : PaperData) (e : SimilarPaperEntry)
    (h : similar_entry target pd = some e) :
    pd.paper.title ≠ target.paper.title ∧
    (0 < technique_overlap target pd ∨ 0 < domain_overlap target pd) ∧
    e.paper = pd.paper ∧
    e.technique_similarity = technique_overlap target pd ∧
    e.domain_similarity = domain_overlap target pd := by
  rw [similar_entry] at h
  split_ifs at h with h1 h2
  · exact ⟨h1, h2, by rw [← Option.some.inj h], by rw [← Option.some.inj h],
      by rw [← Option.some.inj h]⟩

theorem similar_entry_of (target pd : PaperData)
    (h1 : pd.paper.title ≠ target.paper.title)
    (h2 : 0 < technique_overlap target pd ∨ 0 < domain_overlap target pd) :
    similar_entry target pd =
      some { paper := pd.paper
             technique_similarity := technique_overlap target pd
             domain_similarity := domain_overlap target pd
             shared_techniques := setIntersectList (target.techniques.map (fun t => t.name))
               (pd.techniques.map (fun t => t.name))
             shared_domains := setIntersectList (target.applications.map (fun a => a.domain))
               (pd.applications.map (fun a => a.domain)) } := by
  rw [similar_entry, if_neg h1, if_pos h2]

/-- Claim C4, as stated, is false in one corner: a non-target record whose
title string equals the target's is skipped even when its overlap with the
target is nonzero, so inclusion is not equivalent to nonzero overlap for
every non-target paper.  Concretely, the twin fixture's second record is a
different record than the target, shares a technique with it, and still
yields no entry. -/
theorem query_similar_papers_iff_cex :
    title_twin_record ∈ ([attention_record, title_twin_record] : List PaperData) ∧
    title_twin_record ≠ attention_record ∧
    find_target [attention_record, title_twin_record] "attention" = some attention_record ∧
    0 < technique_overlap attention_record title_twin_record ∧
    ¬ ∃ e ∈ query_similar_papers [attention_record, title_twin_record] "attention",
        e.paper = title_twin_record.paper := by
  refine ⟨by decide, by decide, by decide, by decide, ?_⟩
  rintro ⟨e, he, -⟩
  rw [show query_similar_papers [attention_record, title_twin_record] "attention" =
    [] by decide] at he
  exact List.not_mem_nil e he

/-- Claim C4 (amended): `query_similar_papers` includes a non-target paper
whose title differs from the target's exactly when its technique-name or
application-domain overlap with the target is nonzero (records carrying the
target's exact title are skipped regardless of overlap); on the fixture
where the second paper shares exactly one technique name and no domain, the
returned entry reports technique_similarity 1 and domain_similarity 0 while
the paper sharing nothing is excluded; the result is pairwise descending in
the sum of the two overlaps, and entries with an equal sum appear exactly as
in discovery order (stable sort). -/
theorem query_similar_papers_behavior :
    (query_similar_papers [sim_target_record, sim_match_record, sim_unrelated_record]
        "Paper One" =
      [{ paper := { title := "Paper Two", year := 2021, authors := ["B"] }
         technique_similarity := 1
         domain_similarity := 0
         shared_techniques := ["Transformer Architecture"]
         shared_domains := [] }]) ∧
    (∀ (papers_data : List PaperData) (t : String) (target : PaperData)
        (e : SimilarPaperEntry),
      find_target papers_data t = some target →
      e ∈ query_similar_papers papers_data t →
      0 < e.technique_similarity ∨ 0 < e.domain_similarity) ∧
    (∀ (papers_data : List PaperData) (t : String) (target pd : PaperData),
      find_target papers_data t = some target →
      pd ∈ papers_data →
      pd.paper.title ≠ target.paper.title →
      (0 < technique_overlap target pd ∨ 0 < domain_overlap target pd) →
      ∃ e ∈ query_similar_papers papers_data t,
        e.paper = pd.paper ∧
        e.technique_similarity = technique_overlap target pd ∧
        e.domain_similarity = domain_overlap target pd) ∧
    (∀ (papers_data : List PaperData) (t : String),
      (query_similar_papers papers_data t).Pairwise
        (fun a b => similarityKey b ≤ similarityKey a)) ∧
    (∀ (papers_data : List PaperData) (t : String) (target : PaperData) (k : Nat),
      find_target papers_data t = some target →
      (query_similar_papers papers_data t).filter (fun e => decide (similarityKey e = k)) =
        (papers_data.filterMap (similar_entry target)).filter
          (fun e => decide (similarityKey e = k))) := by
  refine ⟨by decide, ?_, ?_, ?_, ?_⟩
  · intro papers_data t target e hft he
    rcases List.mem_filterMap.mp ((mem_query_similar_papers_iff _ _ _ hft e).mp he) with
      ⟨pd, _, hsome⟩
    rcases similar_entry_eq_some target pd e hsome with ⟨_, hover, _, htech, hdom⟩
    rw [htech, hdom]
    exact hover
  · intro papers_data t target pd hft hpd htitle hover
    refine ⟨_, (mem_query_similar_papers_iff _ _ _ hft _).mpr
      (List.mem_filterMap.mpr ⟨pd, hpd, similar_entry_of target pd htitle hover⟩), rfl, rfl, rfl⟩
  · intro papers_data t
    rcases hft : find_target papers_data t with _ | target
    · rw [query_similar_papers, hft]
      exact List.Pairwise.nil
    · rw [query_similar_papers, hft]
      exact sortDescBy_pairwise similarityKey _
  · intro papers_data t target k hft
    rw [query_similar_papers, hft]
    exact sortDescBy_filter_key similarityKey _ k

/-- Witness for claim C4: the inclusion clause at the three-record fixture. -/
theorem query_similar_papers_behavior_witness :
    ∃ e ∈ query_similar_papers [sim_target_record, sim_match_record, sim_unrelated_record]
        "Paper One",
      e.paper = sim_match_record.paper ∧
      e.technique_similarity = technique_overlap sim_target_record sim_match_record ∧
      e.domain_similarity = domain_overlap sim_target_record sim_match_record :=
  query_similar_papers_behavior.2.2.1 _ "Paper One" sim_target_record sim_match_record
    (by decide) (by decide) (by decide) (Or.inl (by decide))

/-- Claim C9: the target of `query_similar_papers` is the first record in
load order whose title contains the query substring case-insensitively, and
every record whose title string equals the target's is skipped, so no
returned entry carries the target's title; in particular a second, distinct
record with an identical title is never returned even though it shares a
technique with the target (concretely, the twin fixture yields no entries at
all). -/
theorem query_similar_papers_title_skip :
    (∀ (papers_data : List PaperData) (t : String) (target : PaperData),
      find_target papers_data t = some target →
      ∃ l1 l2, papers_data = l1 ++ target :: l2 ∧
        (∀ pd ∈ l1, isSubstrOf (pyLower t) (pyLower pd.paper.title) = false) ∧
        isSubstrOf (pyLower t) (pyLower target.paper.title) = true) ∧
    (∀ (papers_data : List PaperData) (t : String) (target : PaperData)
        (e : SimilarPaperEntry),
      find_target papers_data t = some target →
      e ∈ query_similar_papers papers_data t →
      e.paper.title ≠ target.paper.title) ∧
    technique_overlap attention_record title_twin_record = 1 ∧
    query_similar_papers [attention_record, title_twin_record] "attention" = [] := by
  refine ⟨?_, ?_, by decide, by decide⟩
  · intro papers_data t target hft
    rcases find?_first_split _ papers_data target hft with ⟨l1, l2, rfl, hnone, hsome⟩
    exact ⟨l1, l2, rfl, fun pd hpd => by simpa using hnone pd hpd, by simpa using hsome⟩
  · intro papers_data t target e hft he
    rcases List.mem_filterMap.mp ((mem_query_similar_papers_iff _ _ _ hft e).mp he) with
      ⟨pd, _, hsome⟩
    rcases similar_entry_eq_some target pd e hsome with ⟨htitle, _, hpaper, _, _⟩
    rw [hpaper]
    exact htitle

/-- Witness for claim C9: both universal clauses at the twin-title fixture,
where the target is the first of the two identically titled records. -/
theorem query_similar_papers_title_skip_witness :
    (∃ l1 l2, ([attention_record, title_twin_record] : List PaperData) =
        l1 ++ attention_record :: l2 ∧
      (∀ pd ∈ l1, isSubstrOf (pyLower "attention") (pyLower pd.paper.title) = false) ∧
      isSubstrOf (pyLower "attention") (pyLower attention_record.paper.title) = true) :=
  query_similar_papers_title_skip.1 [attention_record, title_twin_record] "attention"
    attention_record (by decide)

/-! JSON fixtures for the Record Store claims. -/

def good_ontology : Json :=
  Json.obj [("paper", Json.obj [("title", Json.str "Attention Is All You Need"),
                                ("year", Json.num "2017")])]

def error_ontology : Json :=
  Json.obj [("error", Json.str "Failed to parse JSON from the model response."),
            ("raw_response", Json.str "not json")]

/-- Claim C5: no record whose top-level shape contains an "error" key ever
appears in the loaded `papers_data`, while `save_ontologies` followed by a
reload keeps the record in the persisted file: a save/reload round-trip of a
good record and an error record yields both from the raw loader and only the
good one from `load_ontologies`. -/
theorem error_records_invisible_but_persisted :
    (∀ (content : String) (o : Json), o ∈ load_ontologies content →
      jsonHasErrorKey o = false) ∧
    load_existing_ontologies (save_ontologies [good_ontology, error_ontology]) =
      [good_ontology, error_ontology] ∧
    load_ontologies (save_ontologies [good_ontology, error_ontology]) = [good_ontology] := by
  refine ⟨?_, by decide, by decide⟩
  intro content o ho
  have h := List.mem_filter.mp ho
  simpa using h.2

/-- Witness for claim C5: the exclusion clause applied to the good record in
the round-tripped file. -/
theorem error_records_invisible_but_persisted_witness :
    jsonHasErrorKey good_ontology = false :=
  error_records_invisible_but_persisted.1
    (save_ontologies [good_ontology, error_ontology]) good_ontology (by decide)

/-- Claim C6: the Record Store load is tolerant of all three encodings: a
whole-file parse yielding a non-array value is wrapped into a one-element
sequence (concretely, a single-object file loads as exactly that object);
when the whole-file parse fails, the loader falls back to newline-delimited
parsing that keeps every well-formed line in file order and drops each
malformed line (one well-formed plus one malformed line yields exactly one
record). -/
theorem load_tolerant_encodings :
    (∀ (content : String) (v : Json),
      jsonParse (pyStrip content) = some v → (∀ xs, v ≠ Json.arr xs) →
      load_existing_ontologies content = [v]) ∧
    load_existing_ontologies "\x7b\"paper\": \x7b\"title\": \"T\"\x7d\x7d" =
      [Json.obj [("paper", Json.obj [("title", Json.str "T")])]] ∧
    (∀ content : String,
      pyStrip content ≠ "" → jsonParse (pyStrip content) = none →
      load_existing_ontologies content =
        (((splitNl (pyStrip content).data).map (fun l => pyStrip (String.mk l))).filter
          (fun l => l ≠ "")).filterMap jsonParse) ∧
    load_existing_ontologies "\x7b\"a\": 1\x7d\nnot json" = [Json.obj [("a", Json.num "1")]] := by
  refine ⟨?_, by decide, ?_, by decide⟩
  · intro content v hv hnotarr
    rw [load_existing_ontologies]
    by_cases hc : pyStrip content = ""
    · rw [hc] at hv
      exact Option.noConfusion ((rfl : jsonParse "" = none) ▸ hv)
    · rw [if_neg hc, hv]
      rcases v with _ | _ | _ | _ | xs | _
      · rfl
      · rfl
      · rfl
      · rfl
      · exact absurd rfl (hnotarr xs)
      · rfl
  · intro content h1 h2
    rw [load_existing_ontologies, if_neg h1, h2]

/-- Witness for claim C6: the non-array wrapping clause at a single-object
file and the fallback clause at a file of one malformed line. -/
theorem load_tolerant_encodings_witness :
    load_existing_ontologies "\x7b\"k\": true\x7d" = [Json.obj [("k", Json.bool true)]] ∧
    load_existing_ontologies "not json" =
      (((splitNl (pyStrip "not json").data).map (fun l => pyStrip (String.mk l))).filter
        (fun l => l ≠ "")).filterMap jsonParse :=
  ⟨load_tolerant_encodings.1 "\x7b\"k\": true\x7d" (Json.obj [("k", Json.bool true)])
      (by decide) (fun _ h => Json.noConfusion h),
   load_tolerant_encodings.2.2.1 "not json" (by decide) (by decide)⟩

/-! Helper lemmas for the Context Builder claims. -/

theorem take5_isEmpty {α : Type} (l : List α) : (l.take 5).isEmpty = l.isEmpty := by
  cases l <;> rfl

theorem joinWith_cons_data (sep s : String) (rest : List String) :
    ∃ t, (joinWith sep (s :: rest)).data = s.data ++ t := by
  cases rest with
  | nil => exact ⟨[], by simp [joinWith]⟩
  | cons r rs =>
    exact ⟨sep.data ++ (joinWith sep (r :: rs)).data,
      by simp [joinWith, String.data_append]⟩

theorem create_context_ne_sentinel (info : RelevantInfo) (h : info.papers ≠ []) :
    create_context info ≠ "No relevant information found." := by
  rcases hp : info.papers with _ | ⟨p, ps⟩
  · exact absurd hp h
  · rw [create_context, hp]
    simp only [List.isEmpty_cons, Bool.false_eq_true, if_false, List.cons_append,
      List.isEmpty_cons]
    intro heq
    obtain ⟨t, ht⟩ := joinWith_cons_data "\n" "PAPERS:"
      ((List.map paper_context_line ((p :: ps).take 5) ++
        (if info.techniques.isEmpty = true then []
         else "\nTECHNIQUES:" :: List.map technique_context_line (info.techniques.take 5)) ++
          (if info.applications.isEmpty = true then []
           else "\nAPPLICATIONS:" ::
             List.map application_context_line (info.applications.take 5)) ++
            if info.results.isEmpty = true then []
            else "\nRESULTS:" :: List.map result_context_line (info.results.take 5)))
    rw [heq] at ht
    have h1 : ("No relevant information found.").data =
        'N' :: "o relevant information found.".data := by decide
    have h2 : ("PAPERS:").data = 'P' :: "APERS:".data := by decide
    rw [h1, h2, List.cons_append] at ht
    injection ht with hc _
    exact absurd hc (by decide)

/-- Claim C7: `_create_context` renders at most the first five items of each
non-empty bucket (the rendered block depends only on each bucket's first
five items), and when every bucket is empty it returns the fixed sentinel
string instead of an empty block. -/
theorem create_context_bounded :
    (∀ info : RelevantInfo,
      create_context info =
        create_context { papers := info.papers.take 5, techniques := info.techniques.take 5,
                         applications := info.applications.take 5,
                         results := info.results.take 5 }) ∧
    (∀ info : RelevantInfo,
      info.papers = [] → info.techniques = [] → info.applications = [] → info.results = [] →
      create_context info = "No relevant information found.") := by
  constructor
  · intro info
    rw [create_context, create_context]
    simp only [take5_isEmpty, List.take_take, Nat.min_self]
  · intro info h1 h2 h3 h4
    rw [create_context]
    simp [h1, h2, h3, h4]

/-- Witness for claim C7: the truncation clause at a six-technique bucket
and the sentinel clause at the empty bucket collection. -/
theorem create_context_bounded_witness :
    create_context { techniques := [{ name := "T1" }, { name := "T2" }, { name := "T3" },
                                    { name := "T4" }, { name := "T5" }, { name := "T6" }] } =
      create_context { papers := ([] : List Paper).take 5,
                       techniques := [{ name := "T1" }, { name := "T2" }, { name := "T3" },
                                      { name := "T4" }, { name := "T5" },
                                      ({ name := "T6" } : Technique)].take 5,
                       applications := ([] : List Application).take 5,
                       results := ([] : List ResultRecord).take 5 } ∧
    create_context {} = "No relevant information found." :=
  ⟨create_context_bounded.1 _, create_context_bounded.2 {} rfl rfl rfl rfl⟩

/-- Claim C8: `_extract_relevant_info` unconditionally fills the papers
bucket with every record's paper sub-record, whatever the query string
contains; consequently the context handed to the LLM is the sentinel exactly
when `papers_data` is empty. -/
theorem extract_relevant_info_always_papers :
    (∀ (papers_data : List PaperData) (query : String),
      (extract_relevant_info papers_data query).papers =
        papers_data.map (fun pd => pd.paper)) ∧
    (∀ (papers_data : List PaperData) (query : String),
      (create_context (extract_relevant_info papers_data query) =
        "No relevant information found.") ↔ papers_data = []) := by
  constructor
  · intro papers_data query
    rfl
  · intro papers_data query
    constructor
    · intro h
      by_contra hne
      refine create_context_ne_sentinel (extract_relevant_info papers_data query) ?_ h
      show (extract_relevant_info papers_data query).papers ≠ []
      simpa [extract_relevant_info] using hne
    · rintro rfl
      rw [extract_relevant_info]
      simp only [List.map_nil, List.foldl_nil, ite_self]
      rw [create_context]
      simp

/-- Witness for claim C8: both clauses at concrete inputs, including the
empty knowledge base. -/
theorem extract_relevant_info_always_papers_witness :
    (extract_relevant_info [gnmt_record, attention_record]
        "Which papers use transformer architecture?").papers =
      [gnmt_record, attention_record].map (fun pd => pd.paper) ∧
    (create_context (extract_relevant_info ([] : List PaperData)
        "What are the best techniques for machine translation?") =
      "No relevant information found." ↔ ([] : List PaperData) = []) :=
  ⟨extract_relevant_info_always_papers.1 [gnmt_record, attention_record] _,
   extract_relevant_info_always_papers.2 [] _⟩

/-- Witness for claim C10 at the two-record GNMT/Transformer collection. -/
theorem stats_type_counts_le_total_nodes_witness :
    (get_graph_statistics [gnmt_record, attention_record]
        (build_graph [gnmt_record, attention_record])).paper_nodes +
    (get_graph_statistics [gnmt_record, attention_record]
        (build_graph [gnmt_record, attention_record])).technique_nodes +
    (get_graph_statistics [gnmt_record, attention_record]
        (build_graph [gnmt_record, attention_record])).result_nodes +
    (get_graph_statistics [gnmt_record, attention_record]
        (build_graph [gnmt_record, attention_record])).application_nodes ≤
    (get_graph_statistics [gnmt_record, attention_record]
        (build_graph [gnmt_record, attention_record])).total_nodes :=
  stats_type_counts_le_total_nodes.1 [gnmt_record, attention_record]

end GraphLLM
